import Mathlib

/-!
Verification of the Connectivity and Telemetry Delivery subsystem of the
tcp_client firmware (src/main/wifi_manager.c and src/main/http_client.c),
via a shallow embedding: the module contexts become Lean structures, the
event handlers and API functions become pure state-transition functions,
and the asynchronous transport is abstracted by an explicit result datum
passed to the function that invoked it.
-/

namespace TcpClient

/-- Model of the esp_err_t error codes that appear in the two modules.
Codes not individually named by the sources are covered by otherErr. -/
inductive EspErr
  | ESP_OK
  | ESP_FAIL
  | ESP_ERR_INVALID_ARG
  | ESP_ERR_INVALID_STATE
  | ESP_ERR_TIMEOUT
  | ESP_ERR_WIFI_NOT_CONNECT
  | ESP_ERR_NO_MEM
  | otherErr (code : Nat)
  deriving DecidableEq

/-! ## WiFi manager (src/main/wifi_manager.c) -/

/-- wifi_status_t from wifi_manager.h. -/
inductive WifiStatus
  | DISCONNECTED
  | CONNECTING
  | CONNECTED
  | FAILED
  | ERROR
  deriving DecidableEq

/-- The two FreeRTOS event-group bits (WIFI_CONNECTED_BIT, WIFI_FAIL_BIT)
used by the module; xEventGroupSetBits sets one, and no code path in
wifi_manager.c ever clears them. -/
structure EventGroupBits where
  connected : Bool
  failed : Bool
  deriving DecidableEq

/-- wifi_manager_context_t: the fields the claims depend on.  The handles
(netif, handler instances, the event-group handle itself) carry no logical
content here; the bit contents of the event group are kept inline. -/
structure WifiCtx where
  initialized : Bool
  status : WifiStatus
  retry_count : Nat
  bits : EventGroupBits
  deriving DecidableEq

/-- The events dispatched to wifi_event_handler that have a non-default
branch: WIFI_EVENT_STA_START, WIFI_EVENT_STA_DISCONNECTED,
IP_EVENT_STA_GOT_IP.  Default branches only log and change nothing. -/
inductive WifiEvent
  | STA_START
  | STA_DISCONNECTED
  | GOT_IP
  deriving DecidableEq

/-- wifi_event_handler (wifi_manager.c lines 51-99).  max models the
compile-time constant WIFI_MAXIMUM_RETRY (a menuconfig value, hence a
parameter).  The esp_wifi_connect() side effect is a request to the
network stack and carries no module state. -/
def wifi_event_handler (max : Nat) (ctx : WifiCtx) (ev : WifiEvent) : WifiCtx :=
  match ev with
  | .STA_START => { ctx with status := .CONNECTING }
  | .STA_DISCONNECTED =>
      if ctx.retry_count < max then
        { ctx with retry_count := ctx.retry_count + 1, status := .CONNECTING }
      else
        { ctx with status := .FAILED, bits := { ctx.bits with failed := true } }
  | .GOT_IP =>
      { ctx with retry_count := 0, status := .CONNECTED,
                 bits := { ctx.bits with connected := true } }

/-- Delivering a sequence of events to wifi_event_handler in order. -/
def runWifiEvents (max : Nat) (ctx : WifiCtx) (evs : List WifiEvent) : WifiCtx :=
  evs.foldl (wifi_event_handler max) ctx

/-- wifi_manager_get_retry_count (wifi_manager.c lines 387-390). -/
def wifi_manager_get_retry_count (ctx : WifiCtx) : Nat :=
  ctx.retry_count

/-- wifi_manager_get_status (wifi_manager.c lines 273-276). -/
def wifi_manager_get_status (ctx : WifiCtx) : WifiStatus :=
  ctx.status

/-- wifi_manager_is_connected (wifi_manager.c lines 265-268). -/
def wifi_manager_is_connected (ctx : WifiCtx) : Bool :=
  ctx.initialized && ctx.status == .CONNECTED

/-- Outcome of the phases of esp_wifi_set_mode / esp_wifi_set_config /
esp_wifi_start inside wifi_manager_connect: which call (if any) failed,
and with what code. -/
inductive StartPhase
  | setModeFail (e : EspErr)
  | setConfigFail (e : EspErr)
  | startFail (e : EspErr)
  | started
  deriving DecidableEq

/-- State of wifi_manager_connect at the point it reaches (or returns
before) the bounded xEventGroupWaitBits call. -/
structure ConnectPrewait where
  after : WifiCtx
  earlyReturn : Option EspErr
  deriving DecidableEq

/-- The portion of wifi_manager_connect (wifi_manager.c lines 189-247)
executed before the bounded wait: the initialized check, the
already-connected early return, the reset of retry_count and status, and
the mode/config/start calls.  No statement in this region touches the
event-group bits: the function contains no xEventGroupClearBits call. -/
def wifi_manager_connect_prewait (ctx : WifiCtx) (ph : StartPhase) : ConnectPrewait :=
  if ¬ ctx.initialized then ⟨ctx, some .ESP_ERR_INVALID_STATE⟩
  else if ctx.status = .CONNECTED then ⟨ctx, some .ESP_OK⟩
  else
    let ctx1 : WifiCtx := { ctx with retry_count := 0, status := .CONNECTING }
    match ph with
    | .setModeFail e => ⟨{ ctx1 with status := .ERROR }, some e⟩
    | .setConfigFail e => ⟨{ ctx1 with status := .ERROR }, some e⟩
    | .startFail e => ⟨{ ctx1 with status := .ERROR }, some e⟩
    | .started => ⟨ctx1, none⟩

/-- wifi_manager_disconnect (wifi_manager.c lines 319-337).  ret models
the value returned by esp_wifi_disconnect(). -/
def wifi_manager_disconnect (ctx : WifiCtx) (ret : EspErr) : WifiCtx × EspErr :=
  if ¬ ctx.initialized then (ctx, .ESP_ERR_INVALID_STATE)
  else if ctx.status = .DISCONNECTED then (ctx, .ESP_ERR_WIFI_NOT_CONNECT)
  else if ret = .ESP_OK then ({ ctx with status := .DISCONNECTED }, .ESP_OK)
  else (ctx, ret)

/-! ## HTTP client (src/main/http_client.c) -/

/-- http_client_stats_t from http_client.h.  The uint32 counters are
modelled as Nat: the claims concern single increments, far from the
2^32 wrap. -/
structure HttpStats where
  initialized : Bool
  total_requests : Nat
  successful_requests : Nat
  failed_requests : Nat
  timeout_count : Nat
  network_errors : Nat
  last_request_time : Int
  last_status_code : Int
  deriving DecidableEq

/-- http_response_t from http_client.h.  The response_data pointer
aliases the context's response buffer, which is kept in HttpCtx; the
record keeps the scalar fields. -/
structure HttpResponse where
  status_code : Int
  content_length : Int
  response_data_len : Nat
  success : Bool
  deriving DecidableEq

/-- http_client_context_t.  response_buffer is none when the C pointer
is NULL; when present it is the byte contents of the malloc block of
length response_buffer_size. -/
structure HttpCtx where
  initialized : Bool
  stats : HttpStats
  last_response : HttpResponse
  response_buffer : Option (List Nat)
  response_buffer_size : Nat
  deriving DecidableEq

/-- The esp_http_client events dispatched to http_event_handler.  Only
HTTP_EVENT_ERROR and HTTP_EVENT_ON_DATA mutate state; the others only
log and are collapsed into otherEvent. -/
inductive HttpEvent
  | ERROR
  | ON_DATA (chunk : List Nat)
  | otherEvent
  deriving DecidableEq

/-- memcpy of src into buf starting at position pos (writes past the end
of buf are dropped by List.set, which cannot happen on the in-bounds
calls the handler makes). -/
def memcpyAt : List Nat → Nat → List Nat → List Nat
  | buf, _, [] => buf
  | buf, pos, b :: rest => memcpyAt (buf.set pos b) (pos + 1) rest

/-- http_event_handler (http_client.c lines 45-95).  For ON_DATA
(lines 65-80): if a buffer exists and the chunk is non-empty, compute
available_space = size - len - 1, copy min(chunk_len, available_space)
bytes at offset len, advance len, and null-terminate at the new len.
The size_t subtractions cannot underflow on reachable states because
len < size is invariant from the reset, so Nat truncated subtraction
agrees with the C size_t computation there.  For HTTP_EVENT_ERROR
(lines 48-51): increment network_errors. -/
def http_event_handler (ctx : HttpCtx) (ev : HttpEvent) : HttpCtx :=
  match ev with
  | .ERROR =>
      { ctx with stats := { ctx.stats with network_errors := ctx.stats.network_errors + 1 } }
  | .ON_DATA chunk =>
      match ctx.response_buffer with
      | none => ctx
      | some buf =>
          if 0 < chunk.length then
            let available_space :=
              ctx.response_buffer_size - ctx.last_response.response_data_len - 1
            let copy_len :=
              if chunk.length < available_space then chunk.length else available_space
            if 0 < copy_len then
              let newLen := ctx.last_response.response_data_len + copy_len
              let buf1 := memcpyAt buf ctx.last_response.response_data_len (chunk.take copy_len)
              { ctx with response_buffer := some (buf1.set newLen 0),
                         last_response := { ctx.last_response with response_data_len := newLen } }
            else ctx
          else ctx
  | .otherEvent => ctx

/-- Delivering a sequence of incremental data chunks to the handler. -/
def runDataChunks (ctx : HttpCtx) (chunks : List (List Nat)) : HttpCtx :=
  chunks.foldl (fun c ch => http_event_handler c (.ON_DATA ch)) ctx

/-- The reset of the last response at the start of perform_http_post
(http_client.c lines 214-219): zero the record, repoint response_data at
the buffer, and write a terminator at offset 0 when the buffer exists. -/
def reset_last_response (ctx : HttpCtx) : HttpCtx :=
  let ctx1 : HttpCtx := { ctx with last_response := ⟨0, 0, 0, false⟩ }
  match ctx1.response_buffer with
  | none => ctx1
  | some buf => { ctx1 with response_buffer := some (buf.set 0 0) }

/-- Behaviour of the transport during one perform_http_post call:
either esp_http_client_init returns NULL, or the client is created and
esp_http_client_perform runs, firing the given events and returning res;
status and content_length model what esp_http_client_get_status_code and
esp_http_client_get_content_length would report afterwards. -/
inductive TransportResult
  | initFail
  | completes (events : List HttpEvent) (res : EspErr) (status : Int) (content_length : Int)
  deriving DecidableEq

/-- perform_http_post (http_client.c lines 205-288).  now models
esp_timer_get_time().  The branch structure follows the C exactly:
null-argument check; reset of the last response; client-init failure
(failed_requests++, ESP_FAIL); otherwise total_requests++ and
last_request_time, the perform call (during which the events fire),
then the classification of res: ESP_OK with 2xx status (success := true,
successful_requests++, ESP_OK), ESP_OK with non-2xx (success := false,
failed_requests++, ESP_FAIL), timeout (failed_requests++,
timeout_count++, res), other failure (failed_requests++,
network_errors++, res). -/
def perform_http_post (ctx : HttpCtx) (url : Option String) (json_data : Option String)
    (now : Int) (tr : TransportResult) : HttpCtx × EspErr :=
  match url, json_data with
  | none, _ => (ctx, .ESP_ERR_INVALID_ARG)
  | some _, none => (ctx, .ESP_ERR_INVALID_ARG)
  | some _, some _ =>
    let ctx1 := reset_last_response ctx
    match tr with
    | .initFail =>
        ({ ctx1 with stats := { ctx1.stats with failed_requests := ctx1.stats.failed_requests + 1 } }, .ESP_FAIL)
    | .completes events res status clen =>
        let ctx2 : HttpCtx :=
          { ctx1 with stats := { ctx1.stats with total_requests := ctx1.stats.total_requests + 1, last_request_time := now } }
        let ctx3 := events.foldl http_event_handler ctx2
        if res = .ESP_OK then
          let ctx4 : HttpCtx :=
            { ctx3 with last_response := { ctx3.last_response with status_code := status, content_length := clen },
                        stats := { ctx3.stats with last_status_code := status } }
          if 200 ≤ status ∧ status < 300 then
            ({ ctx4 with last_response := { ctx4.last_response with success := true },
                         stats := { ctx4.stats with successful_requests := ctx4.stats.successful_requests + 1 } }, .ESP_OK)
          else
            ({ ctx4 with last_response := { ctx4.last_response with success := false },
                         stats := { ctx4.stats with failed_requests := ctx4.stats.failed_requests + 1 } }, .ESP_FAIL)
        else
          let ctx5 : HttpCtx :=
            { ctx3 with stats := { ctx3.stats with failed_requests := ctx3.stats.failed_requests + 1 } }
          if res = .ESP_ERR_TIMEOUT then
            ({ ctx5 with stats := { ctx5.stats with timeout_count := ctx5.stats.timeout_count + 1 } }, res)
          else
            ({ ctx5 with stats := { ctx5.stats with network_errors := ctx5.stats.network_errors + 1 } }, res)

/-- The configured default endpoint (CONFIG_TCP_CLIENT_API_ENDPOINT, a
menuconfig value; its contents are irrelevant to the claims, only that
it is a fixed non-null string). -/
def API_ENDPOINT : String :=
  "CONFIG_TCP_CLIENT_API_ENDPOINT"

/-- Result of http_client_create_json(data): NULL on any cJSON failure,
or the serialized payload string. -/
inductive JsonResult
  | serFail
  | serOk (json : String)
  deriving DecidableEq

/-- http_client_post_sensor_data (http_client.c lines 293-319).
dataNull models a NULL data pointer; ser models the
http_client_create_json call; on NULL json the code increments
failed_requests and returns ESP_FAIL without any further effect. -/
def http_client_post_sensor_data (ctx : HttpCtx) (dataNull : Bool) (ser : JsonResult)
    (now : Int) (tr : TransportResult) : HttpCtx × EspErr :=
  if dataNull then (ctx, .ESP_ERR_INVALID_ARG)
  else if ¬ ctx.initialized then (ctx, .ESP_ERR_INVALID_STATE)
  else
    match ser with
    | .serFail =>
        ({ ctx with stats := { ctx.stats with failed_requests := ctx.stats.failed_requests + 1 } }, .ESP_FAIL)
    | .serOk json => perform_http_post ctx (some API_ENDPOINT) (some json) now tr

/-- http_client_get_last_response (http_client.c lines 378-394).
responseNull models a NULL output pointer. -/
def http_client_get_last_response (ctx : HttpCtx) (responseNull : Bool) :
    Except EspErr HttpResponse :=
  if responseNull then .error .ESP_ERR_INVALID_ARG
  else if ¬ ctx.initialized then .error .ESP_ERR_INVALID_STATE
  else if ctx.stats.total_requests = 0 then .error .ESP_ERR_INVALID_STATE
  else .ok ctx.last_response

/-- http_client_get_stats (http_client.c lines 399-407): only a
null-pointer check, then a copy of the counters. -/
def http_client_get_stats (ctx : HttpCtx) (statsNull : Bool) : Except EspErr HttpStats :=
  if statsNull then .error .ESP_ERR_INVALID_ARG
  else .ok ctx.stats

/-- http_client_reset_stats (http_client.c lines 412-426): zero all
counters, preserving only the stats initialized flag. -/
def http_client_reset_stats (ctx : HttpCtx) : HttpCtx × EspErr :=
  if ¬ ctx.initialized then (ctx, .ESP_ERR_INVALID_STATE)
  else
    ({ ctx with stats := { initialized := ctx.stats.initialized, total_requests := 0, successful_requests := 0, failed_requests := 0, timeout_count := 0, network_errors := 0, last_request_time := 0, last_status_code := 0 } }, .ESP_OK)

/-- http_client_init (http_client.c lines 100-131).  malloc_result is
the 512-byte block returned by malloc (none on allocation failure; its
contents are arbitrary, as malloc does not zero memory).  The size field
is assigned before the malloc, as in the C. -/
def http_client_init (ctx : HttpCtx) (malloc_result : Option (List Nat)) : HttpCtx × EspErr :=
  if ctx.initialized then (ctx, .ESP_OK)
  else
    let ctx1 : HttpCtx := { ctx with response_buffer_size := 512 }
    match malloc_result with
    | none => (ctx1, .ESP_ERR_NO_MEM)
    | some mem =>
        ({ ctx1 with response_buffer := some mem,
                     stats := { initialized := true, total_requests := 0, successful_requests := 0, failed_requests := 0, timeout_count := 0, network_errors := 0, last_request_time := 0, last_status_code := 0 },
                     last_response := ⟨0, 0, 0, false⟩,
                     initialized := true }, .ESP_OK)

/-- http_client_cleanup (http_client.c lines 456-475): free the buffer
and memset the whole context to zero. -/
def http_client_cleanup (ctx : HttpCtx) : HttpCtx × EspErr :=
  if ¬ ctx.initialized then (ctx, .ESP_OK)
  else
    (⟨false, ⟨false, 0, 0, 0, 0, 0, 0, 0⟩, ⟨0, 0, 0, false⟩, none, 0⟩, .ESP_OK)

/-- Number of HTTP_EVENT_ERROR events in a list (each bumps
network_errors by one in the handler). -/
def errorEventCount : List HttpEvent → Nat
  | [] => 0
  | HttpEvent.ERROR :: rest => errorEventCount rest + 1
  | _ :: rest => errorEventCount rest

/-- Concrete WiFi context: fresh, initialized, no retries, no bits set. -/
def wifiCtxFresh : WifiCtx :=
  ⟨true, .DISCONNECTED, 0, ⟨false, false⟩⟩

/-- A complete delivery scenario for the Response Buffer claims: the
per-request reset of a client context with a buffer of the given size,
followed by a sequence of incremental ON_DATA callbacks. -/
def c4_state (size : Nat) (mem : List Nat) (st : HttpStats) (lr : HttpResponse)
    (chunks : List (List Nat)) : HttpCtx :=
  runDataChunks (reset_last_response ⟨true, st, lr, some mem, size⟩) chunks

/-- Zeroed statistics with the initialized flag set, as right after
http_client_init. -/
def statsFreshInit : HttpStats :=
  ⟨true, 0, 0, 0, 0, 0, 0, 0⟩

/-- Zeroed response record. -/
def respZero : HttpResponse :=
  ⟨0, 0, 0, false⟩

/-- An initialized client context carrying a stale response from an
earlier request: status 404, three body bytes, success still recorded. -/
def ctxStale : HttpCtx :=
  ⟨true, ⟨true, 5, 3, 2, 0, 0, 0, 404⟩, ⟨404, 7, 3, true⟩, some [65, 66, 67, 0, 0, 0, 0, 0], 8⟩

/-- The all-zero context before any init (the C static initializer). -/
def ctxZero : HttpCtx :=
  ⟨false, ⟨false, 0, 0, 0, 0, 0, 0, 0⟩, ⟨0, 0, 0, false⟩, none, 0⟩

/-- A fixed serialized payload used in concrete scenarios. -/
def jsonSample : String :=
  "sample-payload"

/-- Scenario context: after http_client_init on the zero context. -/
def ctxAfterInit : HttpCtx :=
  (http_client_init ctxZero (some (List.replicate 512 0))).1

/-- Scenario context: after one successful post (HTTP 200) on the
freshly initialized client. -/
def ctxAfterPost : HttpCtx :=
  (http_client_post_sensor_data ctxAfterInit false (.serOk jsonSample) 0
    (.completes [] .ESP_OK 200 2)).1

/-- Scenario context: after http_client_reset_stats on the client that
has issued one request. -/
def ctxAfterReset : HttpCtx :=
  (http_client_reset_stats ctxAfterPost).1

/-! ### Helper lemmas about the disconnect-retry loop -/

/-- Running k consecutive disconnect events while the budget suffices
increments the counter k times, leaves the bits alone, and parks the
status at CONNECTING (for k > 0). -/
lemma runWifiEvents_disc_le (max : Nat) :
    ∀ (k : Nat) (ctx : WifiCtx), ctx.retry_count + k ≤ max →
      runWifiEvents max ctx (List.replicate k WifiEvent.STA_DISCONNECTED) =
        { ctx with retry_count := ctx.retry_count + k,
                   status := if k = 0 then ctx.status else .CONNECTING } := by
  intro k
  induction k with
  | zero =>
      intro ctx _
      simp [runWifiEvents]
  | succ n ih =>
      intro ctx h
      have hlt : ctx.retry_count < max := by omega
      have hstep : wifi_event_handler max ctx .STA_DISCONNECTED =
          { ctx with retry_count := ctx.retry_count + 1, status := .CONNECTING } := by
        simp [wifi_event_handler, hlt]
      have h2 : ({ ctx with retry_count := ctx.retry_count + 1, status := WifiStatus.CONNECTING } : WifiCtx).retry_count + n ≤ max := by
        simp; omega
      calc runWifiEvents max ctx (List.replicate (n + 1) WifiEvent.STA_DISCONNECTED)
          = runWifiEvents max ({ ctx with retry_count := ctx.retry_count + 1, status := .CONNECTING }) (List.replicate n WifiEvent.STA_DISCONNECTED) := by
            simp [runWifiEvents, List.replicate_succ, hstep]
        _ = { ctx with retry_count := ctx.retry_count + (n + 1), status := .CONNECTING } := by
            rw [ih _ h2]
            simp
            omega

/-- The retry counter after k disconnect events is clamped at max:
it increments only while below max and never exceeds it. -/
lemma runWifiEvents_disc_min (max : Nat) :
    ∀ (k : Nat) (ctx : WifiCtx), ctx.retry_count ≤ max →
      (runWifiEvents max ctx (List.replicate k WifiEvent.STA_DISCONNECTED)).retry_count =
        min (ctx.retry_count + k) max := by
  intro k
  induction k with
  | zero =>
      intro ctx h
      simp [runWifiEvents]
      omega
  | succ n ih =>
      intro ctx h
      by_cases hlt : ctx.retry_count < max
      · have hstep : wifi_event_handler max ctx .STA_DISCONNECTED =
            { ctx with retry_count := ctx.retry_count + 1, status := .CONNECTING } := by
          simp [wifi_event_handler, hlt]
        have h2 : ({ ctx with retry_count := ctx.retry_count + 1, status := WifiStatus.CONNECTING } : WifiCtx).retry_count ≤ max := by
          simp; omega
        have := ih ({ ctx with retry_count := ctx.retry_count + 1, status := .CONNECTING }) h2
        simp [runWifiEvents, List.replicate_succ, hstep] at this ⊢
        rw [this]
        omega
      · have heq : ctx.retry_count = max := by omega
        have hstep : wifi_event_handler max ctx .STA_DISCONNECTED =
            { ctx with status := .FAILED, bits := { ctx.bits with failed := true } } := by
          simp [wifi_event_handler, hlt]
        have h2 : ({ ctx with status := WifiStatus.FAILED, bits := { ctx.bits with failed := true } } : WifiCtx).retry_count ≤ max := by
          simp [heq]
        have := ih ({ ctx with status := .FAILED, bits := { ctx.bits with failed := true } }) h2
        simp [runWifiEvents, List.replicate_succ, hstep] at this ⊢
        rw [this]
        omega

/-- Claim C1: for every configured maximum retry count max, starting from
retry count 0, after max+1 consecutive disconnected-callback events with
no intervening success, the status is FAILED, the fail bit of the event
group has been set, and the retry counter equals max; moreover after any
number k of consecutive disconnect events the counter is min k max, so it
increments only while below max and never exceeds max. -/
theorem C1_retry_exhaustion (max : Nat) (ctx : WifiCtx) (h0 : ctx.retry_count = 0) :
    (runWifiEvents max ctx (List.replicate (max + 1) WifiEvent.STA_DISCONNECTED)).status =
        WifiStatus.FAILED ∧
    (runWifiEvents max ctx (List.replicate (max + 1) WifiEvent.STA_DISCONNECTED)).bits.failed =
        true ∧
    wifi_manager_get_retry_count
        (runWifiEvents max ctx (List.replicate (max + 1) WifiEvent.STA_DISCONNECTED)) = max ∧
    (∀ k : Nat, wifi_manager_get_retry_count
        (runWifiEvents max ctx (List.replicate k WifiEvent.STA_DISCONNECTED)) = min k max) := by
  have hfirst : runWifiEvents max ctx (List.replicate max WifiEvent.STA_DISCONNECTED) =
      { ctx with retry_count := max, status := if max = 0 then ctx.status else .CONNECTING } := by
    have := runWifiEvents_disc_le max max ctx (by omega)
    simpa [h0] using this
  have hsplit : runWifiEvents max ctx (List.replicate (max + 1) WifiEvent.STA_DISCONNECTED) =
      wifi_event_handler max
        (runWifiEvents max ctx (List.replicate max WifiEvent.STA_DISCONNECTED))
        .STA_DISCONNECTED := by
    simp [runWifiEvents, List.replicate_succ']
  have hnotlt : ¬ ({ ctx with retry_count := max, status := if max = 0 then ctx.status else WifiStatus.CONNECTING } : WifiCtx).retry_count < max := by
    simp
  refine ⟨?_, ?_, ?_, ?_⟩
  · rw [hsplit, hfirst]
    simp [wifi_event_handler, hnotlt]
  · rw [hsplit, hfirst]
    simp [wifi_event_handler, hnotlt]
  · rw [hsplit, hfirst]
    simp [wifi_manager_get_retry_count, wifi_event_handler, hnotlt]
  · intro k
    have := runWifiEvents_disc_min max k ctx (by omega)
    simpa [wifi_manager_get_retry_count, h0] using this

/-- Witness for C1 at max = 3 on a fresh context: four consecutive
disconnect events end in FAILED with the fail bit set and counter 3. -/
theorem C1_retry_exhaustion_witness :
    (runWifiEvents 3 wifiCtxFresh (List.replicate 4 WifiEvent.STA_DISCONNECTED)).status =
        WifiStatus.FAILED ∧
    (runWifiEvents 3 wifiCtxFresh (List.replicate 4 WifiEvent.STA_DISCONNECTED)).bits.failed =
        true ∧
    wifi_manager_get_retry_count
        (runWifiEvents 3 wifiCtxFresh (List.replicate 4 WifiEvent.STA_DISCONNECTED)) = 3 ∧
    wifi_manager_get_retry_count
        (runWifiEvents 3 wifiCtxFresh (List.replicate 9 WifiEvent.STA_DISCONNECTED)) = min 9 3 := by
  have h := C1_retry_exhaustion 3 wifiCtxFresh rfl
  exact ⟨h.1, h.2.1, h.2.2.1, h.2.2.2 9⟩

/-- Claim C6: whenever the got-IP callback fires, after any prior event
history, the retry counter is reset to 0, the connected bit is set, the
status becomes CONNECTED, and wifi_manager_get_retry_count returns 0. -/
theorem C6_got_ip_resets (max : Nat) (ctx : WifiCtx) (evs : List WifiEvent) :
    (wifi_event_handler max (runWifiEvents max ctx evs) WifiEvent.GOT_IP).retry_count = 0 ∧
    (wifi_event_handler max (runWifiEvents max ctx evs) WifiEvent.GOT_IP).status =
        WifiStatus.CONNECTED ∧
    (wifi_event_handler max (runWifiEvents max ctx evs) WifiEvent.GOT_IP).bits.connected = true ∧
    wifi_manager_get_retry_count
        (wifi_event_handler max (runWifiEvents max ctx evs) WifiEvent.GOT_IP) = 0 := by
  refine ⟨?_, ?_, ?_, ?_⟩ <;> simp [wifi_event_handler, wifi_manager_get_retry_count]

/-- Claim C5 counterexample: a context left over from a failed prior
attempt still has the fail bit set; wifi_manager_connect reaches the
bounded wait (no early return) with that stale bit still set, so the
claim that both SignalFlags bits are cleared before the interface start
is requested is false on the code: the function contains no clear. -/
theorem C5_stale_bit_counterexample :
    (wifi_manager_connect_prewait ⟨true, .FAILED, 0, ⟨false, true⟩⟩ .started).earlyReturn =
        none ∧
    (wifi_manager_connect_prewait ⟨true, .FAILED, 0, ⟨false, true⟩⟩ .started).after.bits.failed =
        true := by
  constructor <;> rfl

/-- Claim C5 (amended): wifi_manager_connect never modifies the
event-group bits on any path before the bounded wait — they are not
cleared, so a bit set during a previous attempt is still set when the
wait begins and the wait can observe it immediately. -/
theorem C5_connect_preserves_bits (ctx : WifiCtx) (ph : StartPhase) :
    (wifi_manager_connect_prewait ctx ph).after.bits = ctx.bits := by
  unfold wifi_manager_connect_prewait
  cases ph <;> split <;> simp_all <;> split <;> simp_all

/-- Claim C9 counterexample: in the FAILED state (neither Connected nor
Connecting) a disconnect request is accepted: the teardown is issued and,
when it succeeds, the call returns ESP_OK and moves the state to
DISCONNECTED — the claim that every state other than Connected/Connecting
reports failure is false on the code, which rejects only DISCONNECTED. -/
theorem C9_accepts_failed_counterexample :
    (wifi_manager_disconnect ⟨true, .FAILED, 2, ⟨false, true⟩⟩ .ESP_OK).2 = .ESP_OK ∧
    (wifi_manager_disconnect ⟨true, .FAILED, 2, ⟨false, true⟩⟩ .ESP_OK).1.status =
        WifiStatus.DISCONNECTED := by
  constructor <;> rfl

/-- Claim C9 (amended): on an initialized manager, disconnect() is
rejected exactly in the DISCONNECTED state (with ESP_ERR_WIFI_NOT_CONNECT
and no state change); in every other state (Connecting, Connected,
Failed, Error) it requests link teardown, sets the state to DISCONNECTED
exactly when the teardown request succeeds, and otherwise leaves the
state unchanged while reporting the teardown failure code. -/
theorem C9_disconnect_behavior (ctx : WifiCtx) (ret : EspErr)
    (hinit : ctx.initialized = true) :
    (ctx.status = .DISCONNECTED →
        wifi_manager_disconnect ctx ret = (ctx, .ESP_ERR_WIFI_NOT_CONNECT)) ∧
    (ctx.status ≠ .DISCONNECTED → ret = .ESP_OK →
        wifi_manager_disconnect ctx ret = ({ ctx with status := .DISCONNECTED }, .ESP_OK)) ∧
    (ctx.status ≠ .DISCONNECTED → ret ≠ .ESP_OK →
        wifi_manager_disconnect ctx ret = (ctx, ret)) := by
  refine ⟨?_, ?_, ?_⟩ <;> intro h1 <;>
    simp [wifi_manager_disconnect, hinit, h1]
  · intro h2
    simp [h2]
  · intro h2
    simp [h2]

/-- Witness for C9 at a concrete connected context with a successful
teardown, and at a concrete connecting context with a failing one. -/
theorem C9_disconnect_behavior_witness :
    wifi_manager_disconnect ⟨true, .CONNECTED, 0, ⟨true, false⟩⟩ .ESP_OK =
      (⟨true, .DISCONNECTED, 0, ⟨true, false⟩⟩, .ESP_OK) ∧
    wifi_manager_disconnect ⟨true, .CONNECTING, 1, ⟨false, false⟩⟩ .ESP_FAIL =
      (⟨true, .CONNECTING, 1, ⟨false, false⟩⟩, .ESP_FAIL) := by
  have h1 := C9_disconnect_behavior ⟨true, .CONNECTED, 0, ⟨true, false⟩⟩ .ESP_OK rfl
  have h2 := C9_disconnect_behavior ⟨true, .CONNECTING, 1, ⟨false, false⟩⟩ .ESP_FAIL rfl
  exact ⟨h1.2.1 (by decide) rfl, h2.2.2 (by decide) (by decide)⟩

/-! ### Helper lemmas about the response buffer -/

lemma memcpyAt_length (src : List Nat) :
    ∀ (buf : List Nat) (pos : Nat), (memcpyAt buf pos src).length = buf.length := by
  induction src with
  | nil => intro buf pos; rfl
  | cons b rest ih => intro buf pos; simp [memcpyAt, ih]

/-- One ON_DATA delivery: the buffer stays at its capacity, the cursor
advances by exactly min(chunk_len, capacity - len - 1), stays below the
capacity, and the stored body is null-terminated when non-empty. -/
lemma on_data_step (ctx : HttpCtx) (ch : List Nat) (buf : List Nat)
    (hbuf : ctx.response_buffer = some buf)
    (hlen : buf.length = ctx.response_buffer_size)
    (hinv : ctx.last_response.response_data_len + 1 ≤ ctx.response_buffer_size)
    (hterm : 0 < ctx.last_response.response_data_len →
      buf.getD ctx.last_response.response_data_len 1 = 0) :
    ∃ buf2, (http_event_handler ctx (.ON_DATA ch)).response_buffer = some buf2 ∧
      buf2.length = ctx.response_buffer_size ∧
      (http_event_handler ctx (.ON_DATA ch)).response_buffer_size = ctx.response_buffer_size ∧
      (http_event_handler ctx (.ON_DATA ch)).last_response.response_data_len =
        ctx.last_response.response_data_len +
          min ch.length (ctx.response_buffer_size - ctx.last_response.response_data_len - 1) ∧
      (http_event_handler ctx (.ON_DATA ch)).last_response.response_data_len + 1 ≤
        ctx.response_buffer_size ∧
      (0 < (http_event_handler ctx (.ON_DATA ch)).last_response.response_data_len →
        buf2.getD (http_event_handler ctx (.ON_DATA ch)).last_response.response_data_len 1 = 0) := by
  by_cases hch : 0 < ch.length
  · by_cases hlt : ch.length < ctx.response_buffer_size - ctx.last_response.response_data_len - 1
    · have hstep : http_event_handler ctx (.ON_DATA ch) =
          { ctx with response_buffer := some ((memcpyAt buf ctx.last_response.response_data_len ch).set (ctx.last_response.response_data_len + ch.length) 0), last_response := { ctx.last_response with response_data_len := ctx.last_response.response_data_len + ch.length } } := by
        simp [http_event_handler, hbuf, hlt, hch]
      refine ⟨(memcpyAt buf ctx.last_response.response_data_len ch).set
          (ctx.last_response.response_data_len + ch.length) 0, ?_, ?_, ?_, ?_, ?_, ?_⟩
      · rw [hstep]
      · simp [memcpyAt_length, hlen]
      · rw [hstep]
      · rw [hstep]
        show ctx.last_response.response_data_len + ch.length = _
        omega
      · rw [hstep]
        show ctx.last_response.response_data_len + ch.length + 1 ≤ _
        omega
      · rw [hstep]
        intro _
        have hb : ctx.last_response.response_data_len + ch.length <
            ((memcpyAt buf ctx.last_response.response_data_len ch).set
              (ctx.last_response.response_data_len + ch.length) 0).length := by
          rw [List.length_set, memcpyAt_length, hlen]
          omega
        show ((memcpyAt buf ctx.last_response.response_data_len ch).set
            (ctx.last_response.response_data_len + ch.length) 0).getD
            (ctx.last_response.response_data_len + ch.length) 1 = 0
        rw [List.getD_eq_getElem _ _ hb]
        exact List.getElem_set_self _
    · by_cases hpos : 0 < ctx.response_buffer_size - ctx.last_response.response_data_len - 1
      · have hstep : http_event_handler ctx (.ON_DATA ch) =
            { ctx with response_buffer := some ((memcpyAt buf ctx.last_response.response_data_len (ch.take (ctx.response_buffer_size - ctx.last_response.response_data_len - 1))).set (ctx.last_response.response_data_len + (ctx.response_buffer_size - ctx.last_response.response_data_len - 1)) 0), last_response := { ctx.last_response with response_data_len := ctx.last_response.response_data_len + (ctx.response_buffer_size - ctx.last_response.response_data_len - 1) } } := by
          simp [http_event_handler, hbuf, hlt, hch, hpos]
        refine ⟨(memcpyAt buf ctx.last_response.response_data_len
            (ch.take (ctx.response_buffer_size - ctx.last_response.response_data_len - 1))).set
            (ctx.last_response.response_data_len +
              (ctx.response_buffer_size - ctx.last_response.response_data_len - 1)) 0,
            ?_, ?_, ?_, ?_, ?_, ?_⟩
        · rw [hstep]
        · simp [memcpyAt_length, hlen]
        · rw [hstep]
        · rw [hstep]
          show ctx.last_response.response_data_len +
              (ctx.response_buffer_size - ctx.last_response.response_data_len - 1) = _
          omega
        · rw [hstep]
          show ctx.last_response.response_data_len +
              (ctx.response_buffer_size - ctx.last_response.response_data_len - 1) + 1 ≤ _
          omega
        · rw [hstep]
          intro _
          have hb : ctx.last_response.response_data_len +
              (ctx.response_buffer_size - ctx.last_response.response_data_len - 1) <
              ((memcpyAt buf ctx.last_response.response_data_len
                (ch.take (ctx.response_buffer_size - ctx.last_response.response_data_len - 1))).set
                (ctx.last_response.response_data_len +
                  (ctx.response_buffer_size - ctx.last_response.response_data_len - 1)) 0).length := by
            rw [List.length_set, memcpyAt_length, hlen]
            omega
          show ((memcpyAt buf ctx.last_response.response_data_len
              (ch.take (ctx.response_buffer_size - ctx.last_response.response_data_len - 1))).set
              (ctx.last_response.response_data_len +
                (ctx.response_buffer_size - ctx.last_response.response_data_len - 1)) 0).getD
              (ctx.last_response.response_data_len +
                (ctx.response_buffer_size - ctx.last_response.response_data_len - 1)) 1 = 0
          rw [List.getD_eq_getElem _ _ hb]
          exact List.getElem_set_self _
      · have hz : ctx.response_buffer_size - ctx.last_response.response_data_len - 1 = 0 := by
          omega
        have hstep : http_event_handler ctx (.ON_DATA ch) = ctx := by
          simp [http_event_handler, hbuf, hlt, hch, hz]
        refine ⟨buf, ?_, hlen, ?_, ?_, ?_, ?_⟩
        · rw [hstep]
          exact hbuf
        · rw [hstep]
        · rw [hstep, hz]
          omega
        · rw [hstep]
          exact hinv
        · rw [hstep]
          exact hterm
  · have hz : ch.length = 0 := by omega
    have hstep : http_event_handler ctx (.ON_DATA ch) = ctx := by
      simp [http_event_handler, hbuf, hz]
    refine ⟨buf, ?_, hlen, ?_, ?_, ?_, ?_⟩
    · rw [hstep]
      exact hbuf
    · rw [hstep]
    · rw [hstep, hz]
      simp
    · rw [hstep]
      exact hinv
    · rw [hstep]
      exact hterm

/-- The buffer invariant is preserved across any sequence of ON_DATA
deliveries. -/
lemma runDataChunks_inv (chunks : List (List Nat)) :
    ∀ (ctx : HttpCtx) (buf : List Nat), ctx.response_buffer = some buf →
      buf.length = ctx.response_buffer_size →
      ctx.last_response.response_data_len + 1 ≤ ctx.response_buffer_size →
      (0 < ctx.last_response.response_data_len →
        buf.getD ctx.last_response.response_data_len 1 = 0) →
      ∃ buf2, (runDataChunks ctx chunks).response_buffer = some buf2 ∧
        (runDataChunks ctx chunks).response_buffer_size = ctx.response_buffer_size ∧
        buf2.length = ctx.response_buffer_size ∧
        (runDataChunks ctx chunks).last_response.response_data_len + 1 ≤
          ctx.response_buffer_size ∧
        (0 < (runDataChunks ctx chunks).last_response.response_data_len →
          buf2.getD (runDataChunks ctx chunks).last_response.response_data_len 1 = 0) := by
  induction chunks with
  | nil =>
      intro ctx buf hbuf hlen hinv hterm
      exact ⟨buf, hbuf, rfl, hlen, hinv, hterm⟩
  | cons ch rest ih =>
      intro ctx buf hbuf hlen hinv hterm
      obtain ⟨buf1, hb1, hl1, hsz1, hmin1, hinv1, hterm1⟩ :=
        on_data_step ctx ch buf hbuf hlen hinv hterm
      obtain ⟨buf2, hb2, hsz2, hl2, hinv2, hterm2⟩ :=
        ih (http_event_handler ctx (.ON_DATA ch)) buf1 hb1 (by rw [hl1, hsz1]) (by rw [hsz1]; exact hinv1) hterm1
      refine ⟨buf2, ?_, ?_, ?_, ?_, ?_⟩ <;>
        simp [runDataChunks] at hb2 hsz2 hl2 hinv2 hterm2 ⊢ <;>
        rw [hsz1] at * <;> tauto

/-- The per-request reset touches only the last response record and the
terminator byte of the buffer: statistics, initialized flag, and buffer
size are untouched, and the record afterwards is all-zero. -/
lemma reset_last_response_fields (ctx : HttpCtx) :
    (reset_last_response ctx).stats = ctx.stats ∧
    (reset_last_response ctx).initialized = ctx.initialized ∧
    (reset_last_response ctx).last_response = ⟨0, 0, 0, false⟩ ∧
    (reset_last_response ctx).response_buffer_size = ctx.response_buffer_size := by
  rcases h : ctx.response_buffer with _ | buf <;> simp [reset_last_response, h]

/-- Resetting twice is the same as resetting once. -/
lemma reset_last_response_idem (ctx : HttpCtx) :
    reset_last_response (reset_last_response ctx) = reset_last_response ctx := by
  rcases h : ctx.response_buffer with _ | buf <;>
    simp [reset_last_response, h, List.set_set]

lemma errorEventCount_cons (ev : HttpEvent) (rest : List HttpEvent) :
    errorEventCount (ev :: rest) = errorEventCount [ev] + errorEventCount rest := by
  cases ev with
  | ERROR => simp [errorEventCount]; omega
  | ON_DATA ch => simp [errorEventCount]
  | otherEvent => simp [errorEventCount]

/-- One handler invocation leaves every statistics counter except
network_errors unchanged, adds the error-event count to network_errors,
and does not touch the scalar response fields other than the body
cursor. -/
lemma http_event_handler_frame (ctx : HttpCtx) (ev : HttpEvent) :
    (http_event_handler ctx ev).initialized = ctx.initialized ∧
    (http_event_handler ctx ev).stats.initialized = ctx.stats.initialized ∧
    (http_event_handler ctx ev).stats.total_requests = ctx.stats.total_requests ∧
    (http_event_handler ctx ev).stats.successful_requests = ctx.stats.successful_requests ∧
    (http_event_handler ctx ev).stats.failed_requests = ctx.stats.failed_requests ∧
    (http_event_handler ctx ev).stats.timeout_count = ctx.stats.timeout_count ∧
    (http_event_handler ctx ev).stats.last_request_time = ctx.stats.last_request_time ∧
    (http_event_handler ctx ev).stats.last_status_code = ctx.stats.last_status_code ∧
    (http_event_handler ctx ev).stats.network_errors =
      ctx.stats.network_errors + errorEventCount [ev] ∧
    (http_event_handler ctx ev).last_response.status_code = ctx.last_response.status_code ∧
    (http_event_handler ctx ev).last_response.content_length =
      ctx.last_response.content_length ∧
    (http_event_handler ctx ev).last_response.success = ctx.last_response.success := by
  cases ev with
  | ERROR => simp [http_event_handler, errorEventCount]
  | otherEvent => simp [http_event_handler, errorEventCount]
  | ON_DATA ch =>
      rcases hbuf : ctx.response_buffer with _ | buf
      · simp [http_event_handler, hbuf, errorEventCount]
      · simp only [http_event_handler, hbuf]
        split_ifs <;> simp [errorEventCount]

/-- The frame property extends to any sequence of handler events. -/
lemma runHttpEvents_frame (events : List HttpEvent) :
    ∀ ctx : HttpCtx,
      ((events.foldl http_event_handler ctx).initialized = ctx.initialized) ∧
      ((events.foldl http_event_handler ctx).stats.initialized = ctx.stats.initialized) ∧
      ((events.foldl http_event_handler ctx).stats.total_requests = ctx.stats.total_requests) ∧
      ((events.foldl http_event_handler ctx).stats.successful_requests =
        ctx.stats.successful_requests) ∧
      ((events.foldl http_event_handler ctx).stats.failed_requests = ctx.stats.failed_requests) ∧
      ((events.foldl http_event_handler ctx).stats.timeout_count = ctx.stats.timeout_count) ∧
      ((events.foldl http_event_handler ctx).stats.last_request_time =
        ctx.stats.last_request_time) ∧
      ((events.foldl http_event_handler ctx).stats.last_status_code =
        ctx.stats.last_status_code) ∧
      ((events.foldl http_event_handler ctx).stats.network_errors =
        ctx.stats.network_errors + errorEventCount events) ∧
      ((events.foldl http_event_handler ctx).last_response.status_code =
        ctx.last_response.status_code) ∧
      ((events.foldl http_event_handler ctx).last_response.content_length =
        ctx.last_response.content_length) ∧
      ((events.foldl http_event_handler ctx).last_response.success =
        ctx.last_response.success) := by
  induction events with
  | nil => intro ctx; simp [errorEventCount]
  | cons ev rest ih =>
      intro ctx
      obtain ⟨a1, a2, a3, a4, a5, a6, a7, a8, a9, a10, a11, a12⟩ :=
        http_event_handler_frame ctx ev
      obtain ⟨b1, b2, b3, b4, b5, b6, b7, b8, b9, b10, b11, b12⟩ :=
        ih (http_event_handler ctx ev)
      simp only [List.foldl_cons]
      refine ⟨b1.trans a1, b2.trans a2, b3.trans a3, b4.trans a4, b5.trans a5, b6.trans a6,
        b7.trans a7, b8.trans a8, ?_, b10.trans a10, b11.trans a11, b12.trans a12⟩
      have hcc := errorEventCount_cons ev rest
      rw [b9, a9]
      omega

/-- Claim C4: for every sequence of incremental response-data callbacks
of any chunk sizes and count, starting from a per-request reset of a
client whose buffer has the configured capacity, the accumulated body
length stays at most capacity minus one, the buffer keeps exactly its
capacity (no write lands past it), the stored body is null-terminated
whenever it is non-empty, and each further callback advances the cursor
by exactly min(chunk_len, capacity - current_len - 1), silently dropping
the rest. -/
theorem C4_response_buffer_safety (size : Nat) (mem : List Nat) (st : HttpStats)
    (lr : HttpResponse) (chunks : List (List Nat))
    (hmem : mem.length = size) (hsize : 1 ≤ size) :
    (c4_state size mem st lr chunks).last_response.response_data_len + 1 ≤ size ∧
    (∃ buf, (c4_state size mem st lr chunks).response_buffer = some buf ∧ buf.length = size ∧
      (0 < (c4_state size mem st lr chunks).last_response.response_data_len →
        buf.getD (c4_state size mem st lr chunks).last_response.response_data_len 1 = 0)) ∧
    (∀ ch : List Nat,
      (http_event_handler (c4_state size mem st lr chunks)
          (.ON_DATA ch)).last_response.response_data_len =
        (c4_state size mem st lr chunks).last_response.response_data_len +
          min ch.length (size - (c4_state size mem st lr chunks).last_response.response_data_len - 1)) := by
  have hc : c4_state size mem st lr chunks =
      runDataChunks ⟨true, st, ⟨0, 0, 0, false⟩, some (mem.set 0 0), size⟩ chunks := rfl
  obtain ⟨buf2, hb, hsz, hl, hinv, hterm⟩ :=
    runDataChunks_inv chunks ⟨true, st, ⟨0, 0, 0, false⟩, some (mem.set 0 0), size⟩
      (mem.set 0 0) rfl (by simp [hmem]) (by simpa using hsize) (by simp)
  rw [hc]
  have hsz2 : (runDataChunks ⟨true, st, ⟨0, 0, 0, false⟩, some (mem.set 0 0), size⟩
      chunks).response_buffer_size = size := hsz
  refine ⟨hinv, ⟨buf2, hb, hl, hterm⟩, ?_⟩
  intro ch
  obtain ⟨buf3, hb3, hl3, hsz3, hmin3, hinv3, hterm3⟩ :=
    on_data_step (runDataChunks ⟨true, st, ⟨0, 0, 0, false⟩, some (mem.set 0 0), size⟩ chunks)
      ch buf2 hb (by rw [hsz2]; exact hl) (by rw [hsz2]; exact hinv) hterm
  rw [hmin3, hsz2]

/-- Witness for C4: a 4-byte buffer receiving a 2-byte then a 3-byte
chunk holds a body of 3 bytes plus terminator, within capacity. -/
theorem C4_response_buffer_safety_witness :
    (c4_state 4 [7, 7, 7, 7] statsFreshInit respZero
        [[65, 66], [67, 68, 69]]).last_response.response_data_len + 1 ≤ 4 ∧
    (c4_state 4 [7, 7, 7, 7] statsFreshInit respZero
        [[65, 66], [67, 68, 69]]).last_response.response_data_len = 3 := by
  constructor
  · exact (C4_response_buffer_safety 4 [7, 7, 7, 7] statsFreshInit respZero
      [[65, 66], [67, 68, 69]] rfl (by omega)).1
  · decide

lemma foldl_handler_total (events : List HttpEvent) (ctx : HttpCtx) :
    (events.foldl http_event_handler ctx).stats.total_requests = ctx.stats.total_requests :=
  (runHttpEvents_frame events ctx).2.2.1

lemma foldl_handler_succ (events : List HttpEvent) (ctx : HttpCtx) :
    (events.foldl http_event_handler ctx).stats.successful_requests =
      ctx.stats.successful_requests :=
  (runHttpEvents_frame events ctx).2.2.2.1

lemma foldl_handler_failed (events : List HttpEvent) (ctx : HttpCtx) :
    (events.foldl http_event_handler ctx).stats.failed_requests = ctx.stats.failed_requests :=
  (runHttpEvents_frame events ctx).2.2.2.2.1

lemma foldl_handler_timeout (events : List HttpEvent) (ctx : HttpCtx) :
    (events.foldl http_event_handler ctx).stats.timeout_count = ctx.stats.timeout_count :=
  (runHttpEvents_frame events ctx).2.2.2.2.2.1

lemma foldl_handler_net (events : List HttpEvent) (ctx : HttpCtx) :
    (events.foldl http_event_handler ctx).stats.network_errors =
      ctx.stats.network_errors + errorEventCount events :=
  (runHttpEvents_frame events ctx).2.2.2.2.2.2.2.2.1

lemma foldl_handler_resp_status (events : List HttpEvent) (ctx : HttpCtx) :
    (events.foldl http_event_handler ctx).last_response.status_code =
      ctx.last_response.status_code :=
  (runHttpEvents_frame events ctx).2.2.2.2.2.2.2.2.2.1

lemma foldl_handler_resp_success (events : List HttpEvent) (ctx : HttpCtx) :
    (events.foldl http_event_handler ctx).last_response.success =
      ctx.last_response.success :=
  (runHttpEvents_frame events ctx).2.2.2.2.2.2.2.2.2.2.2

/-- Full characterisation of one perform_http_post call on a created
transport handle: the statistics deltas, the returned code, and the
recorded response fields, in each of the four classification branches. -/
lemma perform_completes_fields (ctx : HttpCtx) (u j : String) (now : Int)
    (events : List HttpEvent) (res : EspErr) (status clen : Int) (c : HttpCtx) (e : EspErr)
    (hrun : perform_http_post ctx (some u) (some j) now
      (.completes events res status clen) = (c, e)) :
    c.stats.total_requests = ctx.stats.total_requests + 1 ∧
    (res = .ESP_OK → (200 ≤ status ∧ status < 300) →
      e = .ESP_OK ∧ c.last_response.success = true ∧ c.last_response.status_code = status ∧
      c.stats.last_status_code = status ∧
      c.stats.successful_requests = ctx.stats.successful_requests + 1 ∧
      c.stats.failed_requests = ctx.stats.failed_requests ∧
      c.stats.timeout_count = ctx.stats.timeout_count ∧
      c.stats.network_errors = ctx.stats.network_errors + errorEventCount events) ∧
    (res = .ESP_OK → ¬(200 ≤ status ∧ status < 300) →
      e = .ESP_FAIL ∧ c.last_response.success = false ∧ c.last_response.status_code = status ∧
      c.stats.last_status_code = status ∧
      c.stats.failed_requests = ctx.stats.failed_requests + 1 ∧
      c.stats.successful_requests = ctx.stats.successful_requests ∧
      c.stats.timeout_count = ctx.stats.timeout_count ∧
      c.stats.network_errors = ctx.stats.network_errors + errorEventCount events) ∧
    (res = .ESP_ERR_TIMEOUT →
      e = .ESP_ERR_TIMEOUT ∧
      c.stats.timeout_count = ctx.stats.timeout_count + 1 ∧
      c.stats.failed_requests = ctx.stats.failed_requests + 1 ∧
      c.stats.successful_requests = ctx.stats.successful_requests ∧
      c.stats.network_errors = ctx.stats.network_errors + errorEventCount events ∧
      c.last_response.success = false ∧ c.last_response.status_code = 0) ∧
    (res ≠ .ESP_OK → res ≠ .ESP_ERR_TIMEOUT →
      e = res ∧
      c.stats.network_errors = ctx.stats.network_errors + errorEventCount events + 1 ∧
      c.stats.failed_requests = ctx.stats.failed_requests + 1 ∧
      c.stats.successful_requests = ctx.stats.successful_requests ∧
      c.stats.timeout_count = ctx.stats.timeout_count ∧
      c.last_response.success = false ∧ c.last_response.status_code = 0) := by
  obtain ⟨r1, r2, r3, r4⟩ := reset_last_response_fields ctx
  refine ⟨?_, ?_, ?_, ?_, ?_⟩
  · have h := hrun
    simp only [perform_http_post] at h
    split_ifs at h <;>
      (rw [Prod.mk.injEq] at h; obtain ⟨hc, he⟩ := h; subst hc; subst he;
       simp [foldl_handler_total, r1])
  · intro hok h2
    subst hok
    have h := hrun
    simp only [perform_http_post, if_pos h2, if_pos rfl, reduceIte] at h
    rw [Prod.mk.injEq] at h
    obtain ⟨hc, he⟩ := h
    subst hc
    subst he
    refine ⟨rfl, rfl, rfl, ?_, ?_, ?_, ?_, ?_⟩ <;>
      simp [foldl_handler_succ, foldl_handler_failed, foldl_handler_timeout,
        foldl_handler_net, r1]
  · intro hok h2
    subst hok
    have h := hrun
    simp only [perform_http_post, if_neg h2, if_pos rfl, reduceIte] at h
    rw [Prod.mk.injEq] at h
    obtain ⟨hc, he⟩ := h
    subst hc
    subst he
    refine ⟨rfl, rfl, rfl, ?_, ?_, ?_, ?_, ?_⟩ <;>
      simp [foldl_handler_succ, foldl_handler_failed, foldl_handler_timeout,
        foldl_handler_net, r1]
  · intro hok
    subst hok
    have h := hrun
    simp only [perform_http_post, reduceIte] at h
    rw [Prod.mk.injEq] at h
    obtain ⟨hc, he⟩ := h
    subst hc
    subst he
    refine ⟨rfl, ?_, ?_, ?_, ?_, ?_, ?_⟩ <;>
      simp [foldl_handler_succ, foldl_handler_failed, foldl_handler_timeout,
        foldl_handler_net, foldl_handler_resp_status, foldl_handler_resp_success, r1, r3]
  · intro hok ht
    have h := hrun
    simp only [perform_http_post, if_neg hok, if_neg ht] at h
    rw [Prod.mk.injEq] at h
    obtain ⟨hc, he⟩ := h
    subst hc
    subst he
    refine ⟨rfl, ?_, ?_, ?_, ?_, ?_, ?_⟩ <;>
      simp [foldl_handler_succ, foldl_handler_failed, foldl_handler_timeout,
        foldl_handler_net, foldl_handler_resp_status, foldl_handler_resp_success, r1, r3]

/-- Claim C3: for every completed request the outcome classification is
exclusive and exhaustive: when the transport succeeds and the status is
outside the 2xx range the call returns the application-error failure
code with the status recorded and failed_requests incremented; the
timeout code is returned exactly when the transport reports a timeout
(with timeout_count incremented); every other transport failure is
passed through with network_errors incremented; and the recorded success
flag is true exactly when the recorded status code lies in the 2xx
range. -/
theorem C3_outcome_classification (ctx : HttpCtx) (u j : String) (now : Int)
    (events : List HttpEvent) (res : EspErr) (status clen : Int) (c : HttpCtx) (e : EspErr)
    (hrun : perform_http_post ctx (some u) (some j) now
      (.completes events res status clen) = (c, e)) :
    (res = .ESP_OK → (200 ≤ status ∧ status < 300) →
      e = .ESP_OK ∧ c.last_response.success = true ∧ c.last_response.status_code = status ∧
      c.stats.successful_requests = ctx.stats.successful_requests + 1 ∧
      c.stats.failed_requests = ctx.stats.failed_requests) ∧
    (res = .ESP_OK → ¬(200 ≤ status ∧ status < 300) →
      e = .ESP_FAIL ∧ c.last_response.success = false ∧ c.last_response.status_code = status ∧
      c.stats.last_status_code = status ∧
      c.stats.failed_requests = ctx.stats.failed_requests + 1 ∧
      c.stats.successful_requests = ctx.stats.successful_requests) ∧
    (res = .ESP_ERR_TIMEOUT →
      e = .ESP_ERR_TIMEOUT ∧ c.stats.timeout_count = ctx.stats.timeout_count + 1 ∧
      c.stats.failed_requests = ctx.stats.failed_requests + 1) ∧
    (res ≠ .ESP_OK → res ≠ .ESP_ERR_TIMEOUT →
      e = res ∧ c.stats.network_errors = ctx.stats.network_errors + errorEventCount events + 1 ∧
      c.stats.failed_requests = ctx.stats.failed_requests + 1 ∧
      c.stats.timeout_count = ctx.stats.timeout_count) ∧
    (c.last_response.success = true ↔
      200 ≤ c.last_response.status_code ∧ c.last_response.status_code < 300) := by
  obtain ⟨htot, hA, hB, hC, hD⟩ :=
    perform_completes_fields ctx u j now events res status clen c e hrun
  refine ⟨?_, ?_, ?_, ?_, ?_⟩
  · intro hok h2
    obtain ⟨x1, x2, x3, x4, x5, x6, x7, x8⟩ := hA hok h2
    exact ⟨x1, x2, x3, x5, x6⟩
  · intro hok h2
    obtain ⟨x1, x2, x3, x4, x5, x6, x7, x8⟩ := hB hok h2
    exact ⟨x1, x2, x3, x4, x5, x6⟩
  · intro ht
    obtain ⟨x1, x2, x3, x4, x5, x6, x7⟩ := hC ht
    exact ⟨x1, x2, x3⟩
  · intro hok ht
    obtain ⟨x1, x2, x3, x4, x5, x6, x7⟩ := hD hok ht
    exact ⟨x1, x2, x3, x5⟩
  · by_cases hok : res = .ESP_OK
    · by_cases h2 : 200 ≤ status ∧ status < 300
      · obtain ⟨x1, x2, x3, x4, x5, x6, x7, x8⟩ := hA hok h2
        rw [x2, x3]
        exact ⟨fun _ => h2, fun _ => rfl⟩
      · obtain ⟨x1, x2, x3, x4, x5, x6, x7, x8⟩ := hB hok h2
        rw [x2, x3]
        constructor
        · intro hbad
          exact absurd hbad (by simp)
        · intro hcond
          exact absurd hcond h2
    · by_cases ht : res = .ESP_ERR_TIMEOUT
      · obtain ⟨x1, x2, x3, x4, x5, x6, x7⟩ := hC ht
        rw [x6, x7]
        constructor
        · intro hbad
          exact absurd hbad (by simp)
        · intro hcond
          omega
      · obtain ⟨x1, x2, x3, x4, x5, x6, x7⟩ := hD hok ht
        rw [x6, x7]
        constructor
        · intro hbad
          exact absurd hbad (by simp)
        · intro hcond
          omega

/-- Witness for C3: a transport-successful exchange with status 404
returns the failure code, records status 404 with success false, and
increments failed_requests. -/
theorem C3_outcome_classification_witness :
    (perform_http_post ctxStale (some API_ENDPOINT) (some jsonSample) 0
        (.completes [] .ESP_OK 404 0)).2 = .ESP_FAIL ∧
    (perform_http_post ctxStale (some API_ENDPOINT) (some jsonSample) 0
        (.completes [] .ESP_OK 404 0)).1.stats.failed_requests =
      ctxStale.stats.failed_requests + 1 ∧
    (perform_http_post ctxStale (some API_ENDPOINT) (some jsonSample) 0
        (.completes [] .ESP_OK 404 0)).1.last_response.success = false := by
  have h := C3_outcome_classification ctxStale API_ENDPOINT jsonSample 0 [] .ESP_OK 404 0
    (perform_http_post ctxStale (some API_ENDPOINT) (some jsonSample) 0
      (.completes [] .ESP_OK 404 0)).1
    (perform_http_post ctxStale (some API_ENDPOINT) (some jsonSample) 0
      (.completes [] .ESP_OK 404 0)).2 rfl
  obtain ⟨x1, x2, x3, x4, x5, x6⟩ := h.2.1 rfl (by omega)
  exact ⟨x1, x5, x2⟩

/-- Claim C2 counterexample: when payload serialization fails, post()
does increment a counter: failed_requests goes from 2 to 3 on this
concrete context, while the claim says no counter is incremented. -/
theorem C2_serfail_counts_counterexample :
    (http_client_post_sensor_data ctxStale false .serFail 0
        (.completes [] .ESP_OK 200 0)).1.stats.failed_requests = 3 ∧
    ctxStale.stats.failed_requests = 2 ∧
    (http_client_post_sensor_data ctxStale false .serFail 0
        (.completes [] .ESP_OK 200 0)).2 = .ESP_FAIL := by
  refine ⟨rfl, rfl, rfl⟩

/-- Claim C2 (amended): per post() call at most one of successful_requests
and failed_requests is incremented, each by at most one; total_requests
is incremented exactly once whenever the call reaches the transport
perform step, and is unchanged otherwise; when payload serialization
fails, post() returns ESP_FAIL and increments failed_requests once —
total_requests and successful_requests stay unchanged (a serialization
failure is counted as a failure but not as a request attempt). -/
theorem C2_post_counter_discipline (ctx : HttpCtx) (dataNull : Bool) (ser : JsonResult)
    (now : Int) (tr : TransportResult) (c : HttpCtx) (e : EspErr)
    (hrun : http_client_post_sensor_data ctx dataNull ser now tr = (c, e)) :
    (c.stats.successful_requests = ctx.stats.successful_requests ∨
      c.stats.successful_requests = ctx.stats.successful_requests + 1) ∧
    (c.stats.failed_requests = ctx.stats.failed_requests ∨
      c.stats.failed_requests = ctx.stats.failed_requests + 1) ∧
    ¬(c.stats.successful_requests = ctx.stats.successful_requests + 1 ∧
      c.stats.failed_requests = ctx.stats.failed_requests + 1) ∧
    (c.stats.total_requests = ctx.stats.total_requests ∨
      c.stats.total_requests = ctx.stats.total_requests + 1) ∧
    (dataNull = false → ctx.initialized = true →
      ∀ events res status clen, tr = .completes events res status clen →
      ∀ json, ser = .serOk json →
      c.stats.total_requests = ctx.stats.total_requests + 1) ∧
    (dataNull = false → ctx.initialized = true → ser = .serFail →
      c.stats.failed_requests = ctx.stats.failed_requests + 1 ∧
      c.stats.total_requests = ctx.stats.total_requests ∧
      c.stats.successful_requests = ctx.stats.successful_requests ∧
      e = .ESP_FAIL) := by
  by_cases hd : dataNull
  · simp only [http_client_post_sensor_data, hd, if_true, Prod.mk.injEq] at hrun
    obtain ⟨hc, he⟩ := hrun
    subst hc
    subst he
    refine ⟨Or.inl rfl, Or.inl rfl, ?_, Or.inl rfl, ?_, ?_⟩
    · intro ⟨hx, _⟩
      omega
    · intro hfalse
      simp [hd] at hfalse
    · intro hfalse
      simp [hd] at hfalse
  · by_cases hi : ctx.initialized
    · cases ser with
      | serFail =>
          simp only [http_client_post_sensor_data, hd, hi, Bool.false_eq_true, not_true,
            if_false, Prod.mk.injEq] at hrun
          obtain ⟨hc, he⟩ := hrun
          subst hc
          subst he
          refine ⟨Or.inl rfl, Or.inr rfl, ?_, Or.inl rfl, ?_, ?_⟩
          · intro ⟨hx, _⟩
            simp at hx
          · intro _ _ events res status clen _ json hser
            exact absurd hser (by simp)
          · intro _ _ _
            exact ⟨rfl, rfl, rfl, rfl⟩
      | serOk json =>
          have hpost : http_client_post_sensor_data ctx dataNull (.serOk json) now tr =
              perform_http_post ctx (some API_ENDPOINT) (some json) now tr := by
            simp [http_client_post_sensor_data, hd, hi]
          rw [hpost] at hrun
          cases tr with
          | initFail =>
              obtain ⟨r1, r2, r3, r4⟩ := reset_last_response_fields ctx
              simp only [perform_http_post, Prod.mk.injEq] at hrun
              obtain ⟨hc, he⟩ := hrun
              subst hc
              subst he
              refine ⟨Or.inl (by simp [r1]), Or.inr (by simp [r1]), ?_, Or.inl (by simp [r1]),
                ?_, ?_⟩
              · intro ⟨hx, _⟩
                simp [r1] at hx
              · intro _ _ events res status clen htr
                exact absurd htr (by simp)
              · intro _ _ hser
                exact absurd hser (by simp)
          | completes events res status clen =>
              obtain ⟨htot, hA, hB, hC, hD⟩ :=
                perform_completes_fields ctx API_ENDPOINT json now events res status clen c e hrun
              have hsf : (c.stats.successful_requests = ctx.stats.successful_requests ∨
                  c.stats.successful_requests = ctx.stats.successful_requests + 1) ∧
                  (c.stats.failed_requests = ctx.stats.failed_requests ∨
                    c.stats.failed_requests = ctx.stats.failed_requests + 1) ∧
                  ¬(c.stats.successful_requests = ctx.stats.successful_requests + 1 ∧
                    c.stats.failed_requests = ctx.stats.failed_requests + 1) := by
                by_cases hok : res = .ESP_OK
                · by_cases h2 : 200 ≤ status ∧ status < 300
                  · obtain ⟨x1, x2, x3, x4, x5, x6, x7, x8⟩ := hA hok h2
                    exact ⟨Or.inr x5, Or.inl x6, fun hx => by omega⟩
                  · obtain ⟨x1, x2, x3, x4, x5, x6, x7, x8⟩ := hB hok h2
                    exact ⟨Or.inl x6, Or.inr x5, fun hx => by omega⟩
                · by_cases ht : res = .ESP_ERR_TIMEOUT
                  · obtain ⟨x1, x2, x3, x4, x5, x6, x7⟩ := hC ht
                    exact ⟨Or.inl x4, Or.inr x3, fun hx => by omega⟩
                  · obtain ⟨x1, x2, x3, x4, x5, x6, x7⟩ := hD hok ht
                    exact ⟨Or.inl x4, Or.inr x3, fun hx => by omega⟩
              refine ⟨hsf.1, hsf.2.1, hsf.2.2, Or.inr htot, ?_, ?_⟩
              · intro _ _ _ _ _ _ _ _ _
                exact htot
              · intro _ _ hser
                exact absurd hser (by simp)
    · simp only [http_client_post_sensor_data, hd, hi, Bool.false_eq_true, not_false_eq_true,
        if_false, if_true, eq_self_iff_true, Prod.mk.injEq] at hrun
      obtain ⟨hc, he⟩ := hrun
      subst hc
      subst he
      refine ⟨Or.inl rfl, Or.inl rfl, ?_, Or.inl rfl, ?_, ?_⟩
      · intro ⟨hx, _⟩
        omega
      · intro _ hx
        exact absurd hx hi
      · intro _ hx
        exact absurd hx hi

/-- Witness for C2: a successful 200 post on a concrete context
increments total_requests by exactly one. -/
theorem C2_post_counter_discipline_witness :
    (http_client_post_sensor_data ctxStale false (.serOk jsonSample) 0
        (.completes [] .ESP_OK 200 5)).1.stats.total_requests =
      ctxStale.stats.total_requests + 1 := by
  have h := C2_post_counter_discipline ctxStale false (.serOk jsonSample) 0
    (.completes [] .ESP_OK 200 5)
    (http_client_post_sensor_data ctxStale false (.serOk jsonSample) 0
      (.completes [] .ESP_OK 200 5)).1
    (http_client_post_sensor_data ctxStale false (.serOk jsonSample) 0
      (.completes [] .ESP_OK 200 5)).2 rfl
  exact h.2.2.2.2.1 rfl rfl [] .ESP_OK 200 5 rfl jsonSample rfl

/-- Claim C7 counterexample: a post() call whose serialization fails
leaves the previous ResponseRecord fully in place — status still 404,
success still true, body cursor still 3 — while the claim says the
record is overwritten (status 0, success false, cursor 0) on every
execution path of post() including serialization failures. -/
theorem C7_serfail_keeps_record_counterexample :
    (http_client_post_sensor_data ctxStale false .serFail 0
        (.completes [] .ESP_OK 200 0)).1.last_response.status_code = 404 ∧
    (http_client_post_sensor_data ctxStale false .serFail 0
        (.completes [] .ESP_OK 200 0)).1.last_response.success = true ∧
    (http_client_post_sensor_data ctxStale false .serFail 0
        (.completes [] .ESP_OK 200 0)).1.last_response.response_data_len = 3 := by
  refine ⟨rfl, rfl, rfl⟩

/-- Claim C7 (amended): the ResponseRecord and the buffer write cursor
are overwritten at the start of every post() call that reaches the
transport phase — perform_http_post behaves identically whether or not
the previous record is first cleared, so no stale field survives into
the new exchange; a call whose payload serialization fails returns
before the reset and leaves the ResponseRecord unchanged. -/
theorem C7_reset_at_request_start :
    (∀ (ctx : HttpCtx) (u j : String) (now : Int) (tr : TransportResult),
      perform_http_post ctx (some u) (some j) now tr =
        perform_http_post (reset_last_response ctx) (some u) (some j) now tr) ∧
    (∀ (ctx : HttpCtx) (now : Int) (tr : TransportResult), ctx.initialized = true →
      (http_client_post_sensor_data ctx false .serFail now tr).1.last_response =
        ctx.last_response) := by
  constructor
  · intro ctx u j now tr
    simp only [perform_http_post, reset_last_response_idem]
  · intro ctx now tr hinit
    simp [http_client_post_sensor_data, hinit]

/-- Witness for C7: concrete serialization-failure call preserving the
stale record, and the factoring equation at a concrete input. -/
theorem C7_reset_at_request_start_witness :
    (http_client_post_sensor_data ctxStale false .serFail 7
        (.completes [] .ESP_FAIL 0 0)).1.last_response = ctxStale.last_response := by
  exact C7_reset_at_request_start.2 ctxStale 7 (.completes [] .ESP_FAIL 0 0) rfl

/-- Claim C8 counterexample: after init, one issued request (total = 1)
and then resetStats, lastResponse fails with InvalidState even though a
request has been issued since initialization — the resettable counter,
not the request history, decides the outcome. -/
theorem C8_reset_forgets_history_counterexample :
    ctxAfterPost.stats.total_requests = 1 ∧
    http_client_get_last_response ctxAfterReset false =
      .error .ESP_ERR_INVALID_STATE := by
  refine ⟨rfl, rfl⟩

/-- Claim C8 (amended): on an initialized client with a non-null output
pointer, lastResponse fails with InvalidState exactly when the current
total_requests counter is zero, and returns the current ResponseRecord
otherwise; since resetStats zeroes total_requests, the gate is the
resettable counter rather than the full request history. -/
theorem C8_last_response_gated_by_counter (ctx : HttpCtx) (h : ctx.initialized = true) :
    (http_client_get_last_response ctx false = .error .ESP_ERR_INVALID_STATE ↔
      ctx.stats.total_requests = 0) ∧
    (ctx.stats.total_requests ≠ 0 →
      http_client_get_last_response ctx false = .ok ctx.last_response) ∧
    (http_client_reset_stats ctx).1.stats.total_requests = 0 := by
  refine ⟨?_, ?_, ?_⟩
  · constructor
    · intro he
      by_contra hne
      simp [http_client_get_last_response, h, hne] at he
    · intro h0
      simp [http_client_get_last_response, h, h0]
  · intro hne
    simp [http_client_get_last_response, h, hne]
  · simp [http_client_reset_stats, h]

/-- Witness for C8: on the concrete client that has issued one request,
lastResponse succeeds with the current record. -/
theorem C8_last_response_gated_by_counter_witness :
    http_client_get_last_response ctxAfterPost false = .ok ctxAfterPost.last_response := by
  exact (C8_last_response_gated_by_counter ctxAfterPost rfl).2.1 (by decide)

/-- Claim C10: for a non-null output pointer, stats() succeeds and
returns a copy of the current counters on every context — including
never-initialized and cleaned-up ones — and no call of stats() can
produce the InvalidState error. -/
theorem C10_get_stats_unconditional (ctx : HttpCtx) :
    http_client_get_stats ctx false = .ok ctx.stats ∧
    http_client_get_stats ctxZero false = .ok ctxZero.stats ∧
    http_client_get_stats (http_client_cleanup ctx).1 false =
      .ok (http_client_cleanup ctx).1.stats ∧
    (∀ b : Bool, http_client_get_stats ctx b ≠ .error .ESP_ERR_INVALID_STATE) := by
  refine ⟨rfl, rfl, rfl, ?_⟩
  intro b
  cases b <;> simp [http_client_get_stats]

/-- Witness for C5 at the stale-failed context: the bits reaching the
wait are exactly the stale ones. -/
theorem C5_connect_preserves_bits_witness :
    (wifi_manager_connect_prewait ⟨true, .FAILED, 0, ⟨false, true⟩⟩ .started).after.bits =
      (⟨false, true⟩ : EventGroupBits) := by
  exact C5_connect_preserves_bits ⟨true, .FAILED, 0, ⟨false, true⟩⟩ .started

/-- Witness for C6: got-IP after two disconnects on a fresh context with
max = 3 yields CONNECTED with a zero counter. -/
theorem C6_got_ip_resets_witness :
    (wifi_event_handler 3 (runWifiEvents 3 wifiCtxFresh
        (List.replicate 2 WifiEvent.STA_DISCONNECTED)) WifiEvent.GOT_IP).retry_count = 0 ∧
    (wifi_event_handler 3 (runWifiEvents 3 wifiCtxFresh
        (List.replicate 2 WifiEvent.STA_DISCONNECTED)) WifiEvent.GOT_IP).status =
      WifiStatus.CONNECTED := by
  have h := C6_got_ip_resets 3 wifiCtxFresh (List.replicate 2 WifiEvent.STA_DISCONNECTED)
  exact ⟨h.1, h.2.1⟩

/-- Witness for C10 on the never-initialized zero context. -/
theorem C10_get_stats_unconditional_witness :
    http_client_get_stats ctxZero false = .ok ctxZero.stats := by
  exact (C10_get_stats_unconditional ctxZero).1

end TcpClient
